import Mathlib

/-!
# Verification of the DAO governance simulation engine

Shallow embedding of `src/dao_simulation_ganache.py`.

Real-valued quantities of the program are modelled as rationals (`ℚ`).
The process-wide random stream seeded by `random.seed` is modelled as a
function `gauss : Nat → Nat → ℚ`: `gauss seed k` is the `k`-th standard
normal variate of the stream seeded with `seed`, so that Python's
`random.gauss(mu, sigma)` at stream position `k` returns
`mu + sigma * gauss seed k`.  The rejection loop of `truncated_normal`
is given explicit fuel; `none` means the loop has not terminated within
the given number of iterations.  Python's `round` (banker's rounding,
half to even) is modelled exactly by `roundHalfEven` / `roundTo`.
Decimal literals of the source are written as explicit fractions
(`15.8` as `158/10`, and so on) so that every definition reduces in the
kernel.
-/

namespace DaoSim

/-- `NUM_RUNS = 1000` (line 18). -/
def NUM_RUNS : Nat := 1000

/-- `RANDOM_SEED = 42` (line 22). -/
def RANDOM_SEED : Nat := 42

/-- `OFFCHAIN_MEAN = 300` (line 60). -/
def OFFCHAIN_MEAN : ℚ := 300

/-- `OFFCHAIN_STD = 40` (line 61). -/
def OFFCHAIN_STD : ℚ := 40

/-- `OFFCHAIN_MIN = 170` (line 62). -/
def OFFCHAIN_MIN : ℚ := 170

/-- `OFFCHAIN_MAX = 420` (line 63). -/
def OFFCHAIN_MAX : ℚ := 420

/-- `LATENCY_MIN = 1.5` (line 65). -/
def LATENCY_MIN : ℚ := 15/10

/-- `LATENCY_MAX = 19.0` (line 66). -/
def LATENCY_MAX : ℚ := 19

/-- `COMPLIANCE_MIN = 60` (line 68). -/
def COMPLIANCE_MIN : ℚ := 60

/-- `COMPLIANCE_MAX = 100` (line 69). -/
def COMPLIANCE_MAX : ℚ := 100

/-- `ROI_MIN = -0.5` (line 71). -/
def ROI_MIN : ℚ := -(5/10)

/-- `ROI_MAX = 9.0` (line 72). -/
def ROI_MAX : ℚ := 9

/-- `COMPLIANCE_VIOLATION_THRESHOLD = 80.0` (line 74). -/
def COMPLIANCE_VIOLATION_THRESHOLD : ℚ := 80

/-- One entry of the `DAO_STATS` dictionary (lines 24–58). -/
structure DAOProfile where
  id : Nat
  lat_mean : ℚ
  lat_std : ℚ
  comp_mean : ℚ
  comp_std : ℚ
  total_cost_mean : ℚ
  total_cost_std : ℚ
  roi_mean : ℚ
  roi_std : ℚ
  deriving Repr, DecidableEq

/-- The `"DAO 1.0"` entry of `DAO_STATS` (lines 25–35). -/
def DAO_STATS_1 : DAOProfile :=
  { id := 1, lat_mean := 158/10, lat_std := 1, comp_mean := 71, comp_std := 3,
    total_cost_mean := 119000, total_cost_std := 5600, roi_mean := 102/100, roi_std := 5/10 }

/-- The `"DAO 2.0"` entry of `DAO_STATS` (lines 36–46). -/
def DAO_STATS_2 : DAOProfile :=
  { id := 2, lat_mean := 94/10, lat_std := 1, comp_mean := 83, comp_std := 3,
    total_cost_mean := 90000, total_cost_std := 4500, roi_mean := 4, roi_std := 5/10 }

/-- The `"DAO 3.0"` entry of `DAO_STATS` (lines 47–57). -/
def DAO_STATS_3 : DAOProfile :=
  { id := 3, lat_mean := 42/10, lat_std := 11/10, comp_mean := 975/10, comp_std := 24/10,
    total_cost_mean := 55000, total_cost_std := 2600, roi_mean := 75/10, roi_std := 5/10 }

/-- The `DAO_STATS` dictionary as a partial map from label strings
(lines 24–58); `none` corresponds to a Python `KeyError`. -/
def DAO_STATS (label : String) : Option DAOProfile :=
  if label = "DAO 1.0" then some DAO_STATS_1
  else if label = "DAO 2.0" then some DAO_STATS_2
  else if label = "DAO 3.0" then some DAO_STATS_3
  else none

/-! ## Rounding

Python's built-in `round` rounds half to even (banker's rounding);
`round(x, n)` rounds to `n` decimal digits.  We model the idealized
decimal semantics on `ℚ`. -/

/-- Round a rational to the nearest integer, ties to the even integer
(the semantics of Python's `round(x)`). -/
def roundHalfEven (x : ℚ) : ℤ :=
  if x - ⌊x⌋ < 1/2 then ⌊x⌋
  else if 1/2 < x - ⌊x⌋ then ⌊x⌋ + 1
  else if ⌊x⌋ % 2 = 0 then ⌊x⌋ else ⌊x⌋ + 1

/-- Round a rational to `n` decimal digits, ties to even
(the semantics of Python's `round(x, n)`). -/
def roundTo (n : Nat) (x : ℚ) : ℚ :=
  (roundHalfEven (x * 10 ^ n) : ℚ) / 10 ^ n

/-! ## The rejection-sampling loop `truncated_normal` (lines 153–157)

```python
def truncated_normal(mu, sigma, low, high):
    while True:
        x = random.gauss(mu, sigma)
        if low <= x <= high:
            return x
```

`g` is the seeded standard normal stream, `pos` the current stream
position (the number of variates consumed so far), `fuel` the number of
loop iterations we are willing to observe.  On success the function
returns the accepted value together with the new stream position. -/
def truncated_normal (g : Nat → ℚ) (mu sigma low high : ℚ) :
    Nat → Nat → Option (ℚ × Nat)
  | _, 0 => none
  | pos, fuel + 1 =>
      let x := mu + sigma * g pos
      if low ≤ x ∧ x ≤ high then some (x, pos + 1)
      else truncated_normal g mu sigma low high (pos + 1) fuel

/-! ## Run sequencing (lines 159–161)

```python
def dao_sequence(n):
    seq = ["DAO 1.0", "DAO 2.0", "DAO 3.0"]
    return (seq * ((n // 3) + 1))[:n]
```
-/

/-- The fixed cyclic order of generation labels (line 160). -/
def daoLabels : List String := ["DAO 1.0", "DAO 2.0", "DAO 3.0"]

/-- `dao_sequence` (lines 159–161): the list `seq` repeated `n // 3 + 1`
times, truncated to its first `n` elements. -/
def dao_sequence (n : Nat) : List String :=
  (List.flatten (List.replicate (n / 3 + 1) daoLabels)).take n

/-! ## Ledger collaborators

The engine's view of Ganache and the deployed contract.  The chain state
owned by the `DAOGovernance` contract is the ordered list of recorded
decisions `(proposalId, daoVersion)`, appended to by `executeDecision`
(contract lines 100–115).  Receipt gas usage and the network gas price
are deterministic stub inputs indexed by run. -/

/-- A decision recorded on chain: `(proposalId, daoVersion)`. -/
abbrev Decision := Nat × Nat

/-- Deterministic stub of the receipt/gas-price data the ledger returns
for each run index (`receipt.gasUsed` line 175, `w3.eth.gas_price`
line 176). -/
structure LedgerStub where
  gasUsed : Nat → ℚ
  gasPrice : Nat → ℚ

/-- Ganache connection state as seen through `connect_ganache`
(lines 122–126) and the account check (lines 210–212). -/
structure Ganache where
  connected : Bool
  accounts : List String
  stub : LedgerStub

/-- One output row of the simulation, with the values as stored in the
dict of lines 193–204 (already rounded where the code rounds). -/
structure RunRecord where
  simulationId : Nat
  daoGen : String
  latency : ℚ
  compliance : ℚ
  gasCost : ℚ
  offChainCost : ℤ
  totalCost : ℤ
  decisionOutcome : String
  roi : ℚ
  complianceViolation : String
  deriving Repr, DecidableEq

/-- A cell value of the output table. -/
inductive CellValue where
  | nat (n : Nat)
  | int (z : ℤ)
  | rat (q : ℚ)
  | str (s : String)
  deriving Repr, DecidableEq

/-- The dict literal returned by `simulate_one` (lines 193–204), as the
ordered association list of column names to cell values.  Python dicts
preserve insertion order, so this order is the column order of the
emitted table. -/
def recordRow (r : RunRecord) : List (String × CellValue) :=
  [("Simulation ID", .nat r.simulationId),
   ("DAO Gen", .str r.daoGen),
   ("Latency (s)", .rat r.latency),
   ("Compliance (%)", .rat r.compliance),
   ("Gas Cost (ETH)", .rat r.gasCost),
   ("Off-Chain Cost", .int r.offChainCost),
   ("Total Cost (AED)", .int r.totalCost),
   ("Decision Outcome", .str r.decisionOutcome),
   ("ROI (%)", .rat r.roi),
   ("Compliance Violation", .str r.complianceViolation)]

/-- `"Y" if comp < COMPLIANCE_VIOLATION_THRESHOLD else "N"` (line 190). -/
def violationOf (comp : ℚ) : String :=
  if comp < COMPLIANCE_VIOLATION_THRESHOLD then "Y" else "N"

/-- `"Rejected" if roi < 0 or comp < 65 else "Accepted"` (line 191). -/
def outcomeOf (roi comp : ℚ) : String :=
  if roi < 0 ∨ comp < 65 then "Rejected" else "Accepted"

/-- The five synthesized (unrounded) metrics of one run, in draw order
(lines 179–188). -/
structure SynthDraws where
  lat : ℚ
  comp : ℚ
  offchain : ℚ
  total : ℚ
  roi : ℚ
  deriving Repr, DecidableEq

/-- The five sequential `truncated_normal` calls of `simulate_one`
(lines 179–188), threading the stream position through in draw order. -/
def synthesize (g : Nat → ℚ) (fuel : Nat) (s : DAOProfile) (pos : Nat) :
    Option (SynthDraws × Nat) :=
  match truncated_normal g s.lat_mean s.lat_std LATENCY_MIN LATENCY_MAX pos fuel with
  | none => none
  | some (lat, p1) =>
    match truncated_normal g s.comp_mean s.comp_std COMPLIANCE_MIN COMPLIANCE_MAX p1 fuel with
    | none => none
    | some (comp, p2) =>
      match truncated_normal g OFFCHAIN_MEAN OFFCHAIN_STD OFFCHAIN_MIN OFFCHAIN_MAX p2 fuel with
      | none => none
      | some (offchain, p3) =>
        match truncated_normal g s.total_cost_mean s.total_cost_std
            (s.total_cost_mean - 3 * s.total_cost_std)
            (s.total_cost_mean + 3 * s.total_cost_std) p3 fuel with
        | none => none
        | some (total, p4) =>
          match truncated_normal g s.roi_mean s.roi_std ROI_MIN ROI_MAX p4 fuel with
          | none => none
          | some (roi, p5) =>
            some (⟨lat, comp, offchain, total, roi⟩, p5)

/-- `simulate_one` (lines 163–204).  Looks up the profile, submits one
`executeDecision(idx, dao_id)` transaction (appending one decision to
the chain), reads the receipt's gas usage and the current gas price to
compute `gas_cost = gas_used * gas_price / 1e18`, draws the five
synthetic metrics, classifies the outcome from the unrounded draws, and
builds the output row.  The wall-clock timing of lines 170/173 is dead
computation (never stored) and is omitted.  Returns the record, the new
chain state and the new stream position; `none` means the Python call
does not return normally (`KeyError` on an unknown label, or the
rejection loop exceeding the observed fuel). -/
def simulate_one (g : Nat → ℚ) (fuel : Nat) (L : LedgerStub)
    (chain : List Decision) (pos : Nat) (idx : Nat) (label : String) :
    Option (RunRecord × List Decision × Nat) :=
  match DAO_STATS label with
  | none => none
  | some s =>
    let chain' := chain ++ [(idx, s.id)]
    let gas_cost := L.gasUsed idx * L.gasPrice idx / 10 ^ 18
    match synthesize g fuel s pos with
    | none => none
    | some (d, p5) =>
      some ({ simulationId := idx,
              daoGen := label,
              latency := roundTo 2 d.lat,
              compliance := roundTo 1 d.comp,
              gasCost := roundTo 6 gas_cost,
              offChainCost := roundHalfEven d.offchain,
              totalCost := roundHalfEven d.total,
              decisionOutcome := outcomeOf d.roi d.comp,
              roi := roundTo 2 d.roi,
              complianceViolation := violationOf d.comp },
            chain', p5)

/-- Fatal errors raised before the run loop starts:
`ConnectionError("Could not connect to Ganache.")` (line 125) and
`RuntimeError("No accounts available in Ganache.")` (line 212). -/
inductive SimError where
  | connection
  | noAccounts
  deriving Repr, DecidableEq

/-- The run loop of `run_full` (lines 222–225): for each remaining label,
run `simulate_one` with the current 1-based run index and accumulate the
records in order, threading chain state and stream position. -/
def run_loop (g : Nat → ℚ) (fuel : Nat) (L : LedgerStub) :
    Nat → List String → List Decision → Nat →
    Option (List RunRecord × List Decision × Nat)
  | _, [], chain, pos => some ([], chain, pos)
  | i, label :: rest, chain, pos =>
    match simulate_one g fuel L chain pos i label with
    | none => none
    | some (r, chain', pos') =>
      match run_loop g fuel L (i + 1) rest chain' pos' with
      | none => none
      | some (rs, chain'', pos'') => some (r :: rs, chain'', pos'')

/-- `run_full` (lines 206–228), generalized over the seed and the number
of runs (the code fixes `seed = RANDOM_SEED`, `numRuns = NUM_RUNS`).
`gauss seed` is the standard normal stream produced by
`set_seed(seed)` (lines 119–120, called at line 207); the stream
position starts at 0 and only `truncated_normal` draws advance it.
Connectivity failures abort before any run: the error carries the chain
and stream position at the abort, namely `[]` and `0`. -/
def run_full (gauss : Nat → Nat → ℚ) (fuel : Nat) (gan : Ganache)
    (seed numRuns : Nat) :
    Except (SimError × List Decision × Nat)
      (Option (List RunRecord × List Decision × Nat)) :=
  let g := gauss seed
  if gan.connected = false then .error (.connection, [], 0)
  else if gan.accounts = [] then .error (.noAccounts, [], 0)
  else .ok (run_loop g fuel gan.stub 1 (dao_sequence numRuns) [] 0)

/-! ## Helper lemmas -/

/-- The generation id implied by a label: the `id` field of the profile
`DAO_STATS` assigns to it (`s["id"]`, line 165), defaulting to `0` for
labels outside the catalog. -/
def genIdOf (label : String) : Nat :=
  ((DAO_STATS label).map DAOProfile.id).getD 0

/-- Stored-field bounds of one record: the rounded latency, compliance
and ROI lie in the fixed global ranges, the off-chain cost in its fixed
range, and the total cost within mean ± 3·std of the record's own
profile. -/
def recordBounded (r : RunRecord) : Prop :=
  ∃ s, DAO_STATS r.daoGen = some s ∧
    LATENCY_MIN ≤ r.latency ∧ r.latency ≤ LATENCY_MAX ∧
    COMPLIANCE_MIN ≤ r.compliance ∧ r.compliance ≤ COMPLIANCE_MAX ∧
    ROI_MIN ≤ r.roi ∧ r.roi ≤ ROI_MAX ∧
    OFFCHAIN_MIN ≤ (r.offChainCost : ℚ) ∧ (r.offChainCost : ℚ) ≤ OFFCHAIN_MAX ∧
    s.total_cost_mean - 3 * s.total_cost_std ≤ (r.totalCost : ℚ) ∧
    (r.totalCost : ℚ) ≤ s.total_cost_mean + 3 * s.total_cost_std

/-! ## Ledger independence of the synthesized metrics -/

/-- The five synthesized metric fields of a record, as stored. -/
def synthFields (r : RunRecord) : ℚ × ℚ × ℤ × ℤ × ℚ :=
  (r.latency, r.compliance, r.offChainCost, r.totalCost, r.roi)

/-! ## Witness fixtures: a connected Ganache stub and the records the
engine produces on small deterministic streams. -/

/-- A reachable Ganache with one account and a constant-gas stub. -/
def ganW : Ganache :=
  { connected := true, accounts := ["0x0"],
    stub := { gasUsed := fun _ => 21000, gasPrice := fun _ => 20000000000 } }

/-- An unreachable Ganache. -/
def ganBad : Ganache :=
  { connected := false, accounts := [],
    stub := { gasUsed := fun _ => 0, gasPrice := fun _ => 0 } }

/-- The record run 1 produces on the all-zero stream with `ganW`. -/
def recW : RunRecord :=
  { simulationId := 1, daoGen := "DAO 1.0", latency := 79/5, compliance := 71,
    gasCost := 21/50000, offChainCost := 300, totalCost := 119000,
    decisionOutcome := "Accepted", roi := 51/50, complianceViolation := "Y" }

/-- The record run 2 produces on the all-zero stream with `ganW`. -/
def recW2 : RunRecord :=
  { simulationId := 2, daoGen := "DAO 2.0", latency := 47/5, compliance := 83,
    gasCost := 21/50000, offChainCost := 300, totalCost := 90000,
    decisionOutcome := "Accepted", roi := 4, complianceViolation := "N" }

/-- The record run 3 produces on the all-zero stream with `ganW`. -/
def recW3 : RunRecord :=
  { simulationId := 3, daoGen := "DAO 3.0", latency := 21/5, compliance := 195/2,
    gasCost := 21/50000, offChainCost := 300, totalCost := 55000,
    decisionOutcome := "Accepted", roi := 15/2, complianceViolation := "N" }

/-- A second reachable Ganache whose stub reports different gas data. -/
def ganW2 : Ganache :=
  { connected := true, accounts := ["0xb"],
    stub := { gasUsed := fun _ => 52000, gasPrice := fun _ => 1000000000 } }

/-- A stream whose second variate puts the compliance draw of run 1 at
`79.96`, all other draws at the profile means. -/
def gComp : Nat → ℚ := fun k => if k = 1 then 224/75 else 0

/-- The record run 1 produces on `gComp` with `ganW`: displayed
compliance `80.0` together with violation flag `"Y"`. -/
def recW10 : RunRecord :=
  { simulationId := 1, daoGen := "DAO 1.0", latency := 79/5, compliance := 80,
    gasCost := 21/50000, offChainCost := 300, totalCost := 119000,
    decisionOutcome := "Accepted", roi := 51/50, complianceViolation := "Y" }

/-- The synthesized draws of run 1 on the all-zero stream. -/
def drawsW : SynthDraws :=
  { lat := 79/5, comp := 71, offchain := 300, total := 119000, roi := 51/50 }

/-- The synthesized draws of run 1 on `gComp`. -/
def drawsW10 : SynthDraws :=
  { lat := 79/5, comp := 7996/100, offchain := 300, total := 119000, roi := 51/50 }

theorem floor_le_roundHalfEven (x : ℚ) : ⌊x⌋ ≤ roundHalfEven x := by
  unfold roundHalfEven
  split
  · exact le_refl _
  · split
    · exact Int.le.intro 1 rfl
    · split
      · exact le_refl _
      · exact Int.le.intro 1 rfl

theorem roundHalfEven_le_ceil (x : ℚ) : roundHalfEven x ≤ ⌈x⌉ := by
  unfold roundHalfEven
  split
  · exact Int.floor_le_ceil x
  · rename_i hfrac
    push_neg at hfrac
    have hx : (⌊x⌋ : ℚ) < x := by nlinarith
    have hceil : ⌊x⌋ + 1 ≤ ⌈x⌉ := Int.lt_ceil.mpr hx
    split
    · exact hceil
    · split <;> omega

theorem roundHalfEven_ge (x : ℚ) (a : ℤ) (h : (a : ℚ) ≤ x) : a ≤ roundHalfEven x :=
  le_trans (Int.le_floor.mpr h) (floor_le_roundHalfEven x)

theorem roundHalfEven_le (x : ℚ) (b : ℤ) (h : x ≤ (b : ℚ)) : roundHalfEven x ≤ b :=
  le_trans (roundHalfEven_le_ceil x) (Int.ceil_le.mpr h)

/-- If `a ≤ x ≤ b` and the endpoints are exact at `n` decimal digits
(`a·10^n` and `b·10^n` are integers), then `roundTo n x` stays in `[a, b]`. -/
theorem roundTo_mem (n : Nat) (x a b : ℚ) (A B : ℤ)
    (hA : (A : ℚ) = a * 10 ^ n) (hB : (B : ℚ) = b * 10 ^ n)
    (hax : a ≤ x) (hxb : x ≤ b) :
    a ≤ roundTo n x ∧ roundTo n x ≤ b := by
  have hpow : (0 : ℚ) < 10 ^ n := by positivity
  have h1 : (A : ℚ) ≤ x * 10 ^ n := by
    rw [hA]; exact mul_le_mul_of_nonneg_right hax (le_of_lt hpow)
  have h2 : x * 10 ^ n ≤ (B : ℚ) := by
    rw [hB]; exact mul_le_mul_of_nonneg_right hxb (le_of_lt hpow)
  have hlow : (A : ℚ) ≤ (roundHalfEven (x * 10 ^ n) : ℚ) := by
    exact_mod_cast roundHalfEven_ge _ _ h1
  have hhigh : (roundHalfEven (x * 10 ^ n) : ℚ) ≤ (B : ℚ) := by
    exact_mod_cast roundHalfEven_le _ _ h2
  constructor
  · rw [roundTo, le_div_iff₀ hpow, ← hA]; exact hlow
  · rw [roundTo, div_le_iff₀ hpow, ← hB]; exact hhigh

/-- Postcondition of `truncated_normal`: every terminating call returns a
value inside `[low, high]`, and advances the stream position. -/
theorem truncated_normal_mem (g : Nat → ℚ) (mu sigma low high : ℚ)
    (pos fuel : Nat) (x : ℚ) (p : Nat)
    (h : truncated_normal g mu sigma low high pos fuel = some (x, p)) :
    low ≤ x ∧ x ≤ high ∧ pos < p := by
  induction fuel generalizing pos with
  | zero => simp [truncated_normal] at h
  | succ n ih =>
    rw [truncated_normal] at h
    split at h
    · rename_i hcond
      obtain ⟨hx, hp⟩ := Prod.mk.injEq .. ▸ Option.some.injEq .. ▸ h
      subst hx; subst hp
      exact ⟨hcond.1, hcond.2, Nat.lt_succ_self pos⟩
    · obtain ⟨h1, h2, h3⟩ := ih (pos + 1) h
      exact ⟨h1, h2, Nat.lt_of_succ_lt h3⟩

/-- The result of `truncated_normal` does not depend on which fuel bound
is used, as long as both suffice. -/
theorem truncated_normal_mono (g : Nat → ℚ) (mu sigma low high : ℚ)
    (pos fuel fuel' : Nat) (r : ℚ × Nat)
    (h : truncated_normal g mu sigma low high pos fuel = some r)
    (hle : fuel ≤ fuel') :
    truncated_normal g mu sigma low high pos fuel' = some r := by
  induction fuel generalizing pos fuel' with
  | zero => simp [truncated_normal] at h
  | succ n ih =>
    obtain ⟨m, rfl⟩ : ∃ m, fuel' = m + 1 := by
      cases fuel' with
      | zero => omega
      | succ m => exact ⟨m, rfl⟩
    rw [truncated_normal] at h ⊢
    split at h
    · rw [if_pos (by assumption)]; exact h
    · rw [if_neg (by assumption)]
      exact ih (pos + 1) m h (by omega)

theorem DAO_STATS_cases {label : String} {s : DAOProfile}
    (h : DAO_STATS label = some s) :
    s = DAO_STATS_1 ∨ s = DAO_STATS_2 ∨ s = DAO_STATS_3 := by
  unfold DAO_STATS at h
  split_ifs at h <;> simp_all

theorem synthesize_eq_some {g : Nat → ℚ} {fuel : Nat} {s : DAOProfile}
    {pos : Nat} {d : SynthDraws} {p : Nat}
    (h : synthesize g fuel s pos = some (d, p)) :
    ∃ p1 p2 p3 p4,
      truncated_normal g s.lat_mean s.lat_std LATENCY_MIN LATENCY_MAX pos fuel
        = some (d.lat, p1) ∧
      truncated_normal g s.comp_mean s.comp_std COMPLIANCE_MIN COMPLIANCE_MAX p1 fuel
        = some (d.comp, p2) ∧
      truncated_normal g OFFCHAIN_MEAN OFFCHAIN_STD OFFCHAIN_MIN OFFCHAIN_MAX p2 fuel
        = some (d.offchain, p3) ∧
      truncated_normal g s.total_cost_mean s.total_cost_std
        (s.total_cost_mean - 3 * s.total_cost_std)
        (s.total_cost_mean + 3 * s.total_cost_std) p3 fuel
        = some (d.total, p4) ∧
      truncated_normal g s.roi_mean s.roi_std ROI_MIN ROI_MAX p4 fuel
        = some (d.roi, p) := by
  unfold synthesize at h
  cases h1 : truncated_normal g s.lat_mean s.lat_std LATENCY_MIN LATENCY_MAX pos fuel with
  | none => simp [h1] at h
  | some lp =>
    obtain ⟨lat, p1⟩ := lp
    simp only [h1] at h
    cases h2 : truncated_normal g s.comp_mean s.comp_std COMPLIANCE_MIN COMPLIANCE_MAX p1 fuel with
    | none => simp [h2] at h
    | some cp =>
      obtain ⟨comp, p2⟩ := cp
      simp only [h2] at h
      cases h3 : truncated_normal g OFFCHAIN_MEAN OFFCHAIN_STD OFFCHAIN_MIN OFFCHAIN_MAX p2 fuel with
      | none => simp [h3] at h
      | some op =>
        obtain ⟨offchain, p3⟩ := op
        simp only [h3] at h
        cases h4 : truncated_normal g s.total_cost_mean s.total_cost_std
            (s.total_cost_mean - 3 * s.total_cost_std)
            (s.total_cost_mean + 3 * s.total_cost_std) p3 fuel with
        | none => simp [h4] at h
        | some tp =>
          obtain ⟨total, p4⟩ := tp
          simp only [h4] at h
          cases h5 : truncated_normal g s.roi_mean s.roi_std ROI_MIN ROI_MAX p4 fuel with
          | none => simp [h5] at h
          | some rp =>
            obtain ⟨roi, p5⟩ := rp
            simp only [h5] at h
            simp only [Option.some.injEq, Prod.mk.injEq] at h
            obtain ⟨hd, hp⟩ := h
            subst hd; subst hp
            exact ⟨p1, p2, p3, p4, rfl, h2, h3, h4, h5⟩

theorem synthesize_bounds {g : Nat → ℚ} {fuel : Nat} {s : DAOProfile}
    {pos : Nat} {d : SynthDraws} {p : Nat}
    (h : synthesize g fuel s pos = some (d, p)) :
    (LATENCY_MIN ≤ d.lat ∧ d.lat ≤ LATENCY_MAX) ∧
    (COMPLIANCE_MIN ≤ d.comp ∧ d.comp ≤ COMPLIANCE_MAX) ∧
    (OFFCHAIN_MIN ≤ d.offchain ∧ d.offchain ≤ OFFCHAIN_MAX) ∧
    (s.total_cost_mean - 3 * s.total_cost_std ≤ d.total ∧
      d.total ≤ s.total_cost_mean + 3 * s.total_cost_std) ∧
    (ROI_MIN ≤ d.roi ∧ d.roi ≤ ROI_MAX) := by
  obtain ⟨p1, p2, p3, p4, h1, h2, h3, h4, h5⟩ := synthesize_eq_some h
  obtain ⟨a1, b1, _⟩ := truncated_normal_mem _ _ _ _ _ _ _ _ _ h1
  obtain ⟨a2, b2, _⟩ := truncated_normal_mem _ _ _ _ _ _ _ _ _ h2
  obtain ⟨a3, b3, _⟩ := truncated_normal_mem _ _ _ _ _ _ _ _ _ h3
  obtain ⟨a4, b4, _⟩ := truncated_normal_mem _ _ _ _ _ _ _ _ _ h4
  obtain ⟨a5, b5, _⟩ := truncated_normal_mem _ _ _ _ _ _ _ _ _ h5
  exact ⟨⟨a1, b1⟩, ⟨a2, b2⟩, ⟨a3, b3⟩, ⟨a4, b4⟩, ⟨a5, b5⟩⟩

theorem simulate_one_eq_some {g : Nat → ℚ} {fuel : Nat} {L : LedgerStub}
    {chain : List Decision} {pos idx : Nat} {label : String}
    {r : RunRecord} {chain' : List Decision} {pos' : Nat}
    (h : simulate_one g fuel L chain pos idx label = some (r, chain', pos')) :
    ∃ s d, DAO_STATS label = some s ∧ synthesize g fuel s pos = some (d, pos') ∧
      chain' = chain ++ [(idx, s.id)] ∧
      r = { simulationId := idx,
            daoGen := label,
            latency := roundTo 2 d.lat,
            compliance := roundTo 1 d.comp,
            gasCost := roundTo 6 (L.gasUsed idx * L.gasPrice idx / 10 ^ 18),
            offChainCost := roundHalfEven d.offchain,
            totalCost := roundHalfEven d.total,
            decisionOutcome := outcomeOf d.roi d.comp,
            roi := roundTo 2 d.roi,
            complianceViolation := violationOf d.comp } := by
  unfold simulate_one at h
  cases hs : DAO_STATS label with
  | none => rw [hs] at h; exact absurd h (by simp)
  | some s =>
    rw [hs] at h
    cases hd : synthesize g fuel s pos with
    | none => simp [hd] at h
    | some dp =>
      obtain ⟨d, p5⟩ := dp
      simp only [hd, Option.some.injEq, Prod.mk.injEq] at h
      obtain ⟨hr, hc, hp⟩ := h
      subst hp
      exact ⟨s, d, rfl, hd, hc.symm, hr.symm⟩

theorem flatten_replicate_length (k : Nat) :
    (List.flatten (List.replicate k daoLabels)).length = 3 * k := by
  induction k with
  | zero => simp
  | succ m ih =>
    rw [List.replicate_succ, List.flatten_cons, List.length_append, ih]
    simp [daoLabels]; omega

theorem flatten_replicate_getElem (k i : Nat) (hi : i < 3 * k) :
    (List.flatten (List.replicate k daoLabels))[i]? = daoLabels[i % 3]? := by
  induction k generalizing i with
  | zero => omega
  | succ m ih =>
    rw [List.replicate_succ, List.flatten_cons]
    by_cases h3 : i < 3
    · rw [List.getElem?_append_left (by simp [daoLabels]; omega)]
      rw [Nat.mod_eq_of_lt h3]
    · rw [List.getElem?_append_right (by simp [daoLabels]; omega)]
      have hlen : daoLabels.length = 3 := by simp [daoLabels]
      rw [hlen, ih (i - 3) (by omega)]
      congr 1
      omega

theorem dao_sequence_length (n : Nat) : (dao_sequence n).length = n := by
  rw [dao_sequence, List.length_take, flatten_replicate_length]
  omega

theorem dao_sequence_getElem (n i : Nat) (hi : i < n) :
    (dao_sequence n)[i]? = daoLabels[i % 3]? := by
  rw [dao_sequence, List.getElem?_take_of_lt hi,
    flatten_replicate_getElem _ i (by omega)]

theorem mem_dao_sequence {l : String} {n : Nat} (h : l ∈ dao_sequence n) :
    l ∈ daoLabels := by
  have h1 := List.mem_of_mem_take h
  obtain ⟨ls, hls, hmem⟩ := List.mem_flatten.mp h1
  rwa [List.eq_of_mem_replicate hls] at hmem

theorem DAO_STATS_of_mem {l : String} (h : l ∈ daoLabels) :
    ∃ s, DAO_STATS l = some s := by
  simp only [daoLabels, List.mem_cons, List.not_mem_nil, or_false] at h
  rcases h with rfl | rfl | rfl
  · exact ⟨DAO_STATS_1, rfl⟩
  · exact ⟨DAO_STATS_2, rfl⟩
  · exact ⟨DAO_STATS_3, rfl⟩

/-- Structure of a successful run loop: the records carry the run indices
`i, i+1, …` in order, their labels are exactly the input labels, and the
chain grows by exactly one decision `(simulationId, generationId)` per
record, in record order. -/
theorem run_loop_spec (g : Nat → ℚ) (fuel : Nat) (L : LedgerStub) :
    ∀ (labels : List String) (i : Nat) (chain : List Decision) (pos : Nat)
      (rs : List RunRecord) (chain' : List Decision) (pos' : Nat),
      run_loop g fuel L i labels chain pos = some (rs, chain', pos') →
      rs.map RunRecord.simulationId = List.range' i labels.length ∧
      rs.map RunRecord.daoGen = labels ∧
      chain' = chain ++ rs.map (fun r => (r.simulationId, genIdOf r.daoGen)) := by
  intro labels
  induction labels with
  | nil =>
    intro i chain pos rs chain' pos' h
    simp only [run_loop, Option.some.injEq, Prod.mk.injEq] at h
    obtain ⟨h1, h2, _⟩ := h
    subst h1; subst h2
    simp
  | cons label rest ih =>
    intro i chain pos rs chain' pos' h
    simp only [run_loop] at h
    cases h1 : simulate_one g fuel L chain pos i label with
    | none => simp [h1] at h
    | some rcp =>
      obtain ⟨r, chain1, pos1⟩ := rcp
      simp only [h1] at h
      cases h2 : run_loop g fuel L (i + 1) rest chain1 pos1 with
      | none => simp [h2] at h
      | some rcp2 =>
        obtain ⟨rs2, chain2, pos2⟩ := rcp2
        simp only [h2] at h
        simp only [Option.some.injEq, Prod.mk.injEq] at h
        obtain ⟨hrs, hch, _⟩ := h
        subst hrs; subst hch
        obtain ⟨hids, hlabs, hchain⟩ := ih (i + 1) chain1 pos1 rs2 chain2 pos2 h2
        obtain ⟨s, d, hs, _, hchain1, hr⟩ := simulate_one_eq_some h1
        have hid : r.simulationId = i := by rw [hr]
        have hlab : r.daoGen = label := by rw [hr]
        refine ⟨?_, ?_, ?_⟩
        · rw [List.map_cons, hid, hids, List.length_cons, List.range'_succ]
        · rw [List.map_cons, hlab, hlabs]
        · rw [hchain, hchain1, List.map_cons, hid, hlab]
          have hgen : genIdOf label = s.id := by simp [genIdOf, hs]
          rw [hgen, List.append_assoc, List.singleton_append]

/-- The per-profile total-cost bounds are integers for every profile of
the catalog. -/
theorem total_endpoints {label : String} {s : DAOProfile}
    (h : DAO_STATS label = some s) :
    ∃ A B : ℤ, (A : ℚ) = s.total_cost_mean - 3 * s.total_cost_std ∧
      (B : ℚ) = s.total_cost_mean + 3 * s.total_cost_std := by
  rcases DAO_STATS_cases h with rfl | rfl | rfl
  · exact ⟨102200, 135800, by norm_num [DAO_STATS_1], by norm_num [DAO_STATS_1]⟩
  · exact ⟨76500, 103500, by norm_num [DAO_STATS_2], by norm_num [DAO_STATS_2]⟩
  · exact ⟨47200, 62800, by norm_num [DAO_STATS_3], by norm_num [DAO_STATS_3]⟩

theorem simulate_one_bounded {g : Nat → ℚ} {fuel : Nat} {L : LedgerStub}
    {chain : List Decision} {pos idx : Nat} {label : String}
    {r : RunRecord} {chain' : List Decision} {pos' : Nat}
    (h : simulate_one g fuel L chain pos idx label = some (r, chain', pos')) :
    recordBounded r := by
  obtain ⟨s, d, hs, hd, _, hr⟩ := simulate_one_eq_some h
  obtain ⟨⟨l1, l2⟩, ⟨c1, c2⟩, ⟨o1, o2⟩, ⟨t1, t2⟩, ⟨q1, q2⟩⟩ := synthesize_bounds hd
  subst hr
  refine ⟨s, hs, ?_, ?_, ?_, ?_, ?_, ?_, ?_, ?_, ?_, ?_⟩
  · exact (roundTo_mem 2 d.lat LATENCY_MIN LATENCY_MAX 150 1900
      (by norm_num [LATENCY_MIN]) (by norm_num [LATENCY_MAX]) l1 l2).1
  · exact (roundTo_mem 2 d.lat LATENCY_MIN LATENCY_MAX 150 1900
      (by norm_num [LATENCY_MIN]) (by norm_num [LATENCY_MAX]) l1 l2).2
  · exact (roundTo_mem 1 d.comp COMPLIANCE_MIN COMPLIANCE_MAX 600 1000
      (by norm_num [COMPLIANCE_MIN]) (by norm_num [COMPLIANCE_MAX]) c1 c2).1
  · exact (roundTo_mem 1 d.comp COMPLIANCE_MIN COMPLIANCE_MAX 600 1000
      (by norm_num [COMPLIANCE_MIN]) (by norm_num [COMPLIANCE_MAX]) c1 c2).2
  · exact (roundTo_mem 2 d.roi ROI_MIN ROI_MAX (-50) 900
      (by norm_num [ROI_MIN]) (by norm_num [ROI_MAX]) q1 q2).1
  · exact (roundTo_mem 2 d.roi ROI_MIN ROI_MAX (-50) 900
      (by norm_num [ROI_MIN]) (by norm_num [ROI_MAX]) q1 q2).2
  · have := roundHalfEven_ge d.offchain 170 (by exact_mod_cast o1)
    rw [OFFCHAIN_MIN]; exact_mod_cast this
  · have := roundHalfEven_le d.offchain 420 (by exact_mod_cast o2)
    rw [OFFCHAIN_MAX]; exact_mod_cast this
  · obtain ⟨A, B, hA, hB⟩ := total_endpoints hs
    have := roundHalfEven_ge d.total A (by rw [hA]; exact t1)
    calc s.total_cost_mean - 3 * s.total_cost_std = (A : ℚ) := hA.symm
    _ ≤ _ := by exact_mod_cast this
  · obtain ⟨A, B, hA, hB⟩ := total_endpoints hs
    have := roundHalfEven_le d.total B (by rw [hB]; exact t2)
    calc ((roundHalfEven d.total : ℤ) : ℚ) ≤ (B : ℚ) := by exact_mod_cast this
    _ = _ := hB

theorem run_loop_bounded (g : Nat → ℚ) (fuel : Nat) (L : LedgerStub) :
    ∀ (labels : List String) (i : Nat) (chain : List Decision) (pos : Nat)
      (rs : List RunRecord) (chain' : List Decision) (pos' : Nat),
      run_loop g fuel L i labels chain pos = some (rs, chain', pos') →
      ∀ r ∈ rs, recordBounded r := by
  intro labels
  induction labels with
  | nil =>
    intro i chain pos rs chain' pos' h
    simp only [run_loop, Option.some.injEq, Prod.mk.injEq] at h
    obtain ⟨h1, _, _⟩ := h
    subst h1
    simp
  | cons label rest ih =>
    intro i chain pos rs chain' pos' h
    simp only [run_loop] at h
    cases h1 : simulate_one g fuel L chain pos i label with
    | none => simp [h1] at h
    | some rcp =>
      obtain ⟨r, chain1, pos1⟩ := rcp
      simp only [h1] at h
      cases h2 : run_loop g fuel L (i + 1) rest chain1 pos1 with
      | none => simp [h2] at h
      | some rcp2 =>
        obtain ⟨rs2, chain2, pos2⟩ := rcp2
        simp only [h2, Option.some.injEq, Prod.mk.injEq] at h
        obtain ⟨hrs, _, _⟩ := h
        subst hrs
        intro r' hr'
        rcases List.mem_cons.mp hr' with rfl | hmem
        · exact simulate_one_bounded h1
        · exact ih (i + 1) chain1 pos1 rs2 chain2 pos2 h2 r' hmem

theorem simulate_one_stub (g : Nat → ℚ) (fuel : Nat) (L1 L2 : LedgerStub)
    (chain1 chain2 : List Decision) (pos idx : Nat) (label : String) :
    (simulate_one g fuel L1 chain1 pos idx label).map
        (fun x => (synthFields x.1, x.2.2))
    = (simulate_one g fuel L2 chain2 pos idx label).map
        (fun x => (synthFields x.1, x.2.2)) := by
  unfold simulate_one
  cases hs : DAO_STATS label with
  | none => rfl
  | some s =>
    cases hd : synthesize g fuel s pos with
    | none => simp [hd]
    | some dp =>
      obtain ⟨d, p5⟩ := dp
      simp [hd, synthFields]

theorem run_loop_stub (g : Nat → ℚ) (fuel : Nat) (L1 L2 : LedgerStub) :
    ∀ (labels : List String) (i : Nat) (chain1 chain2 : List Decision) (pos : Nat),
      (run_loop g fuel L1 i labels chain1 pos).map
          (fun x => (x.1.map synthFields, x.2.2))
      = (run_loop g fuel L2 i labels chain2 pos).map
          (fun x => (x.1.map synthFields, x.2.2)) := by
  intro labels
  induction labels with
  | nil => intro i chain1 chain2 pos; rfl
  | cons label rest ih =>
    intro i chain1 chain2 pos
    have hstub := simulate_one_stub g fuel L1 L2 chain1 chain2 pos i label
    simp only [run_loop]
    cases ha : simulate_one g fuel L1 chain1 pos i label with
    | none =>
      rw [ha] at hstub
      cases hb : simulate_one g fuel L2 chain2 pos i label with
      | none => rfl
      | some xb => rw [hb] at hstub; exact absurd hstub (by simp)
    | some xa =>
      rw [ha] at hstub
      cases hb : simulate_one g fuel L2 chain2 pos i label with
      | none => rw [hb] at hstub; exact absurd hstub (by simp)
      | some xb =>
        rw [hb] at hstub
        obtain ⟨ra, chaina, posa⟩ := xa
        obtain ⟨rb, chainb, posb⟩ := xb
        simp only [Option.map_some', Option.some.injEq, Prod.mk.injEq] at hstub
        obtain ⟨hfields, hpos⟩ := hstub
        subst hpos
        have hrec := ih (i + 1) chaina chainb posa
        cases hc : run_loop g fuel L1 (i + 1) rest chaina posa with
        | none =>
          rw [hc] at hrec
          cases hd : run_loop g fuel L2 (i + 1) rest chainb posa with
          | none => simp [hc, hd]
          | some yd => rw [hd] at hrec; exact absurd hrec (by simp)
        | some yc =>
          rw [hc] at hrec
          cases hd : run_loop g fuel L2 (i + 1) rest chainb posa with
          | none => rw [hd] at hrec; exact absurd hrec (by simp)
          | some yd =>
            rw [hd] at hrec
            obtain ⟨rsa, chaina2, posa2⟩ := yc
            obtain ⟨rsb, chainb2, posb2⟩ := yd
            simp only [Option.map_some', Option.some.injEq, Prod.mk.injEq] at hrec
            obtain ⟨hmaps, hpos2⟩ := hrec
            simp only [hc, hd, Option.map_some', Option.some.injEq, Prod.mk.injEq,
              List.map_cons]
            exact ⟨by rw [hfields, hmaps], hpos2⟩

/-- Any unrounded compliance in `[79.95, 80)` is displayed as `80.0`
after rounding to one decimal (ties go up here because `799` is odd). -/
theorem roundTo1_eq_80 (x : ℚ) (h1 : (79.95 : ℚ) ≤ x) (h2 : x < 80) :
    roundTo 1 x = 80 := by
  have hf : ⌊x * 10 ^ 1⌋ = 799 := by
    apply Int.floor_eq_iff.mpr
    constructor <;> push_cast <;> nlinarith
  have hr : roundHalfEven (x * 10 ^ 1) = 800 := by
    unfold roundHalfEven
    rw [hf]
    split_ifs with hlt hgt heven
    · exfalso; push_cast at hlt; nlinarith
    · norm_num
    · exfalso; norm_num at heven
    · norm_num
  rw [roundTo, hr]
  norm_num

/-- Successful `run_full` is exactly a successful run loop over
`dao_sequence numRuns` from run index 1, empty chain, stream position 0. -/
theorem run_full_ok {gauss : Nat → Nat → ℚ} {fuel : Nat} {gan : Ganache}
    {seed numRuns : Nat} {rs : List RunRecord} {chain : List Decision} {pos : Nat}
    (h : run_full gauss fuel gan seed numRuns = .ok (some (rs, chain, pos))) :
    run_loop (gauss seed) fuel gan.stub 1 (dao_sequence numRuns) [] 0
      = some (rs, chain, pos) := by
  cases hc : gan.connected with
  | false => simp [run_full, hc] at h
  | true =>
    cases ha : gan.accounts with
    | nil => simp [run_full, hc, ha] at h
    | cons a rest =>
      simp only [run_full, hc, ha] at h
      simp at h
      exact h

/-! ## The claims -/

/-- C2: for every run record, `complianceViolation = Y` iff the
synthesized (unrounded) compliance is strictly below 80.0 (so compliance
exactly 80.0 gives `N`), and `decisionOutcome = Rejected` iff the
synthesized roi is strictly below 0 or the synthesized compliance is
strictly below 65; the two fields are functions of those draws alone. -/
theorem claim_C2 (g : Nat → ℚ) (fuel : Nat) (L : LedgerStub)
    (chain : List Decision) (pos idx : Nat) (label : String)
    (r : RunRecord) (chain' : List Decision) (pos' : Nat)
    (s : DAOProfile) (d : SynthDraws) (p : Nat)
    (hs : DAO_STATS label = some s)
    (hd : synthesize g fuel s pos = some (d, p))
    (h : simulate_one g fuel L chain pos idx label = some (r, chain', pos')) :
    (r.complianceViolation = "Y" ↔ d.comp < 80) ∧
    (r.complianceViolation = "N" ↔ ¬ d.comp < 80) ∧
    (d.comp = 80 → r.complianceViolation = "N") ∧
    (r.decisionOutcome = "Rejected" ↔ (d.roi < 0 ∨ d.comp < 65)) ∧
    (r.decisionOutcome = "Accepted" ↔ ¬ (d.roi < 0 ∨ d.comp < 65)) := by
  obtain ⟨s', d', hs', hd', _, hr⟩ := simulate_one_eq_some h
  rw [hs] at hs'
  injection hs' with hs''
  subst hs''
  rw [hd] at hd'
  injection hd' with hd''
  obtain ⟨hd1, _⟩ := Prod.mk.injEq .. ▸ hd''
  subst hd1
  subst hr
  have h80 : COMPLIANCE_VIOLATION_THRESHOLD = 80 := by
    norm_num [COMPLIANCE_VIOLATION_THRESHOLD]
  simp only [violationOf, outcomeOf, h80]
  refine ⟨?_, ?_, ?_, ?_, ?_⟩
  · split_ifs with hc
    · simp [hc]
    · simp [hc]
  · split_ifs with hc
    · simp [hc]
    · simp [hc]
  · intro hc
    rw [if_neg (by rw [hc]; norm_num)]
  · split_ifs with hc
    · simp [hc]
    · simp [hc]
  · split_ifs with hc
    · simp [hc]
    · simp [hc]

/-- C2 witness: run 1 on the all-zero stream draws compliance 71 and
roi 1.02, so the record shows violation `Y` and outcome `Accepted`. -/
theorem claim_C2_witness :
    (recW.complianceViolation = "Y" ↔ drawsW.comp < 80) ∧
    (recW.complianceViolation = "N" ↔ ¬ drawsW.comp < 80) ∧
    (drawsW.comp = 80 → recW.complianceViolation = "N") ∧
    (recW.decisionOutcome = "Rejected" ↔ (drawsW.roi < 0 ∨ drawsW.comp < 65)) ∧
    (recW.decisionOutcome = "Accepted" ↔ ¬ (drawsW.roi < 0 ∨ drawsW.comp < 65)) :=
  claim_C2 (fun _ => 0) 1 ganW.stub [] 0 1 "DAO 1.0" recW [(1, 1)] 5
    DAO_STATS_1 drawsW 5 rfl
    (by norm_num [synthesize, truncated_normal, DAO_STATS_1, drawsW,
      LATENCY_MIN, LATENCY_MAX, COMPLIANCE_MIN, COMPLIANCE_MAX, OFFCHAIN_MEAN,
      OFFCHAIN_STD, OFFCHAIN_MIN, OFFCHAIN_MAX, ROI_MIN, ROI_MAX])
    (by norm_num [simulate_one, synthesize, truncated_normal, DAO_STATS,
      DAO_STATS_1, ganW, recW, roundTo, roundHalfEven, outcomeOf, violationOf,
      COMPLIANCE_VIOLATION_THRESHOLD, LATENCY_MIN, LATENCY_MAX, COMPLIANCE_MIN,
      COMPLIANCE_MAX, OFFCHAIN_MEAN, OFFCHAIN_STD, OFFCHAIN_MIN, OFFCHAIN_MAX,
      ROI_MIN, ROI_MAX])

/-- C6: the rejection loop of `truncated_normal` has no iteration cap:
whenever no possible draw satisfies `low ≤ x ≤ high` — in particular
whenever `low > high` — the call never returns, at any stream position
and for any number of observed iterations. -/
theorem claim_C6 (g : Nat → ℚ) (mu sigma low high : ℚ) :
    ((∀ k, ¬ (low ≤ mu + sigma * g k ∧ mu + sigma * g k ≤ high)) →
      ∀ pos fuel, truncated_normal g mu sigma low high pos fuel = none) ∧
    (high < low →
      ∀ pos fuel, truncated_normal g mu sigma low high pos fuel = none) := by
  have main : (∀ k, ¬ (low ≤ mu + sigma * g k ∧ mu + sigma * g k ≤ high)) →
      ∀ pos fuel, truncated_normal g mu sigma low high pos fuel = none := by
    intro hno pos fuel
    induction fuel generalizing pos with
    | zero => rfl
    | succ n ih =>
      rw [truncated_normal]
      rw [if_neg (hno pos)]
      exact ih (pos + 1)
  refine ⟨main, fun hlh => main ?_⟩
  intro k ⟨hl, hh⟩
  exact absurd (hl.trans hh) (not_le.mpr hlh)

/-- C6 witness: with `low = 1 > 0 = high` the loop returns nothing after
100 iterations from position 0. -/
theorem claim_C6_witness :
    truncated_normal (fun _ => 0) 0 1 1 0 0 100 = none :=
  (claim_C6 (fun _ => 0) 0 1 1 0).2 (by norm_num) 0 100

/-- C8: if the ledger is unreachable, or reachable with no account,
`run_full` fails fatally before any run: the error state carries the
empty chain (no transaction submitted) and stream position 0 (no random
draw consumed), and no records are produced. -/
theorem claim_C8 (gauss : Nat → Nat → ℚ) (fuel : Nat) (gan : Ganache)
    (seed numRuns : Nat) :
    (gan.connected = false →
      run_full gauss fuel gan seed numRuns = .error (.connection, [], 0)) ∧
    (gan.connected = true → gan.accounts = [] →
      run_full gauss fuel gan seed numRuns = .error (.noAccounts, [], 0)) := by
  constructor
  · intro hc
    simp [run_full, hc]
  · intro hc ha
    simp [run_full, hc, ha]

/-- C8 witness: the unreachable stub fails with a connection error,
empty chain and no consumed draws. -/
theorem claim_C8_witness :
    run_full (fun _ _ => 0) 1 ganBad 42 1000 = .error (.connection, [], 0) :=
  (claim_C8 (fun _ _ => 0) 1 ganBad 42 1000).1 rfl

/-- C9: the stored gas cost is `round(gasUsed * gasPrice / 1e18, 6)`,
where `gasUsed` and `gasPrice` are the ledger's receipt values for this
run. -/
theorem claim_C9 (g : Nat → ℚ) (fuel : Nat) (L : LedgerStub)
    (chain : List Decision) (pos idx : Nat) (label : String)
    (r : RunRecord) (chain' : List Decision) (pos' : Nat)
    (h : simulate_one g fuel L chain pos idx label = some (r, chain', pos')) :
    r.gasCost = roundTo 6 (L.gasUsed idx * L.gasPrice idx / 10 ^ 18) := by
  obtain ⟨s, d, _, _, _, hr⟩ := simulate_one_eq_some h
  rw [hr]

/-- C9 witness: with gasUsed 21000 and gasPrice 2·10^10 the stored gas
cost is 0.00042. -/
theorem claim_C9_witness :
    recW.gasCost = roundTo 6 (ganW.stub.gasUsed 1 * ganW.stub.gasPrice 1 / 10 ^ 18) :=
  claim_C9 (fun _ => 0) 1 ganW.stub [] 0 1 "DAO 1.0" recW [(1, 1)] 5
    (by norm_num [simulate_one, synthesize, truncated_normal, DAO_STATS,
      DAO_STATS_1, ganW, recW, roundTo, roundHalfEven, outcomeOf, violationOf,
      COMPLIANCE_VIOLATION_THRESHOLD, LATENCY_MIN, LATENCY_MAX, COMPLIANCE_MIN,
      COMPLIANCE_MAX, OFFCHAIN_MEAN, OFFCHAIN_STD, OFFCHAIN_MIN, OFFCHAIN_MAX,
      ROI_MIN, ROI_MAX])

/-- C10: the classifier consumes the unrounded draws while the record
stores the rounded forms, so rounding never influences the outcome
fields; in particular every unrounded compliance in `[79.95, 80)` is
displayed as `80.0` while the violation flag is `Y`. -/
theorem claim_C10 (g : Nat → ℚ) (fuel : Nat) (L : LedgerStub)
    (chain : List Decision) (pos idx : Nat) (label : String)
    (r : RunRecord) (chain' : List Decision) (pos' : Nat)
    (s : DAOProfile) (d : SynthDraws) (p : Nat)
    (hs : DAO_STATS label = some s)
    (hd : synthesize g fuel s pos = some (d, p))
    (h : simulate_one g fuel L chain pos idx label = some (r, chain', pos')) :
    (r.complianceViolation = violationOf d.comp ∧
     r.decisionOutcome = outcomeOf d.roi d.comp ∧
     r.compliance = roundTo 1 d.comp ∧
     r.roi = roundTo 2 d.roi) ∧
    ((79.95 : ℚ) ≤ d.comp → d.comp < 80 →
      r.compliance = 80 ∧ r.complianceViolation = "Y") := by
  obtain ⟨s', d', hs', hd', _, hr⟩ := simulate_one_eq_some h
  rw [hs] at hs'
  injection hs' with hs''
  subst hs''
  rw [hd] at hd'
  injection hd' with hd''
  obtain ⟨hd1, _⟩ := Prod.mk.injEq .. ▸ hd''
  subst hd1
  subst hr
  refine ⟨⟨rfl, rfl, rfl, rfl⟩, fun h1 h2 => ⟨roundTo1_eq_80 d.comp h1 h2, ?_⟩⟩
  have hlt : d.comp < COMPLIANCE_VIOLATION_THRESHOLD := by
    have : COMPLIANCE_VIOLATION_THRESHOLD = 80 := by
      norm_num [COMPLIANCE_VIOLATION_THRESHOLD]
    rw [this]
    exact h2
  simp [violationOf, hlt]

/-- C10 witness: on `gComp` the run-1 compliance draw is 79.96, the
record displays compliance 80.0 with violation `Y`. -/
theorem claim_C10_witness :
    (recW10.complianceViolation = violationOf drawsW10.comp ∧
     recW10.decisionOutcome = outcomeOf drawsW10.roi drawsW10.comp ∧
     recW10.compliance = roundTo 1 drawsW10.comp ∧
     recW10.roi = roundTo 2 drawsW10.roi) ∧
    ((79.95 : ℚ) ≤ drawsW10.comp → drawsW10.comp < 80 →
      recW10.compliance = 80 ∧ recW10.complianceViolation = "Y") :=
  claim_C10 gComp 1 ganW.stub [] 0 1 "DAO 1.0" recW10 [(1, 1)] 5
    DAO_STATS_1 drawsW10 5 rfl
    (by norm_num [synthesize, truncated_normal, DAO_STATS_1, drawsW10, gComp,
      LATENCY_MIN, LATENCY_MAX, COMPLIANCE_MIN, COMPLIANCE_MAX, OFFCHAIN_MEAN,
      OFFCHAIN_STD, OFFCHAIN_MIN, OFFCHAIN_MAX, ROI_MIN, ROI_MAX])
    (by norm_num [simulate_one, synthesize, truncated_normal, DAO_STATS,
      DAO_STATS_1, ganW, recW10, gComp, roundTo, roundHalfEven, outcomeOf,
      violationOf, COMPLIANCE_VIOLATION_THRESHOLD, LATENCY_MIN, LATENCY_MAX,
      COMPLIANCE_MIN, COMPLIANCE_MAX, OFFCHAIN_MEAN, OFFCHAIN_STD, OFFCHAIN_MIN,
      OFFCHAIN_MAX, ROI_MIN, ROI_MAX])

/-- C1: every produced record stores latency in [1.5, 19.0], compliance
in [60, 100], ROI in [-0.5, 9.0], off-chain cost in [170, 420] and total
cost within mean ± 3·std of its run's profile — a consequence of the
postcondition that every terminating `truncated_normal(mu, sigma, low,
high)` call returns a value in `[low, high]`. -/
theorem claim_C1 :
    (∀ (g : Nat → ℚ) (mu sigma low high : ℚ) (pos fuel : Nat) (x : ℚ) (p : Nat),
        truncated_normal g mu sigma low high pos fuel = some (x, p) →
        low ≤ x ∧ x ≤ high) ∧
    (∀ (gauss : Nat → Nat → ℚ) (fuel : Nat) (gan : Ganache) (seed numRuns : Nat)
        (rs : List RunRecord) (chain : List Decision) (pos : Nat),
        run_full gauss fuel gan seed numRuns = .ok (some (rs, chain, pos)) →
        ∀ r ∈ rs, recordBounded r) := by
  constructor
  · intro g mu sigma low high pos fuel x p h
    obtain ⟨h1, h2, _⟩ := truncated_normal_mem g mu sigma low high pos fuel x p h
    exact ⟨h1, h2⟩
  · intro gauss fuel gan seed numRuns rs chain pos h
    exact run_loop_bounded (gauss seed) fuel gan.stub (dao_sequence numRuns)
      1 [] 0 rs chain pos (run_full_ok h)

/-- C1 witness: the record of a concrete one-run execution satisfies all
stored-field bounds. -/
theorem claim_C1_witness : recordBounded recW :=
  claim_C1.2 (fun _ _ => 0) 1 ganW 42 1 [recW] [(1, 1)] 5
    (by norm_num [run_full, run_loop, dao_sequence, daoLabels, List.replicate,
      simulate_one, synthesize, truncated_normal, DAO_STATS, DAO_STATS_1, ganW,
      recW, roundTo, roundHalfEven, outcomeOf, violationOf,
      COMPLIANCE_VIOLATION_THRESHOLD, LATENCY_MIN, LATENCY_MAX, COMPLIANCE_MIN,
      COMPLIANCE_MAX, OFFCHAIN_MEAN, OFFCHAIN_STD, OFFCHAIN_MIN, OFFCHAIN_MAX,
      ROI_MIN, ROI_MAX])
    recW (List.mem_singleton.mpr rfl)

/-- C3: for every `totalRuns = n`, the label sequence is the first `n`
elements of the infinite repetition of (DAO 1.0, DAO 2.0, DAO 3.0) —
position `i` (0-based, run index `i + 1`) carries the label at
`i mod 3` of the fixed cyclic order — and the simulation ids of the
produced records are exactly `1, …, n` in order. -/
theorem claim_C3 (n : Nat) :
    (dao_sequence n).length = n ∧
    (∀ i, i < n → (dao_sequence n)[i]? = daoLabels[i % 3]?) ∧
    (∀ (gauss : Nat → Nat → ℚ) (fuel : Nat) (gan : Ganache) (seed : Nat)
        (rs : List RunRecord) (chain : List Decision) (pos : Nat),
        run_full gauss fuel gan seed n = .ok (some (rs, chain, pos)) →
        rs.map RunRecord.simulationId = List.range' 1 n) := by
  refine ⟨dao_sequence_length n, fun i hi => dao_sequence_getElem n i hi, ?_⟩
  intro gauss fuel gan seed rs chain pos h
  have hspec := (run_loop_spec (gauss seed) fuel gan.stub (dao_sequence n)
    1 [] 0 rs chain pos (run_full_ok h)).1
  rwa [dao_sequence_length n] at hspec

/-- The label sequence for three runs. -/
theorem dao_sequence_three : dao_sequence 3 = ["DAO 1.0", "DAO 2.0", "DAO 3.0"] := by
  simp [dao_sequence, daoLabels, List.replicate]

/-- Run 1 of the three-run witness execution. -/
theorem simulate_one_run1 :
    simulate_one (fun _ => 0) 1 ganW.stub [] 0 1 "DAO 1.0" = some (recW, [(1, 1)], 5) := by
  norm_num [simulate_one, synthesize, truncated_normal, DAO_STATS, DAO_STATS_1,
    ganW, recW, roundTo, roundHalfEven, outcomeOf, violationOf,
    COMPLIANCE_VIOLATION_THRESHOLD, LATENCY_MIN, LATENCY_MAX, COMPLIANCE_MIN,
    COMPLIANCE_MAX, OFFCHAIN_MEAN, OFFCHAIN_STD, OFFCHAIN_MIN, OFFCHAIN_MAX,
    ROI_MIN, ROI_MAX]

/-- Run 2 of the three-run witness execution. -/
theorem simulate_one_run2 :
    simulate_one (fun _ => 0) 1 ganW.stub [(1, 1)] 5 2 "DAO 2.0"
      = some (recW2, [(1, 1), (2, 2)], 10) := by
  norm_num +decide [simulate_one, synthesize, truncated_normal, DAO_STATS, DAO_STATS_2,
    ganW, recW2, roundTo, roundHalfEven, outcomeOf, violationOf,
    COMPLIANCE_VIOLATION_THRESHOLD, LATENCY_MIN, LATENCY_MAX, COMPLIANCE_MIN,
    COMPLIANCE_MAX, OFFCHAIN_MEAN, OFFCHAIN_STD, OFFCHAIN_MIN, OFFCHAIN_MAX,
    ROI_MIN, ROI_MAX]

/-- Run 3 of the three-run witness execution. -/
theorem simulate_one_run3 :
    simulate_one (fun _ => 0) 1 ganW.stub [(1, 1), (2, 2)] 10 3 "DAO 3.0"
      = some (recW3, [(1, 1), (2, 2), (3, 3)], 15) := by
  norm_num +decide [simulate_one, synthesize, truncated_normal, DAO_STATS, DAO_STATS_3,
    ganW, recW3, roundTo, roundHalfEven, outcomeOf, violationOf,
    COMPLIANCE_VIOLATION_THRESHOLD, LATENCY_MIN, LATENCY_MAX, COMPLIANCE_MIN,
    COMPLIANCE_MAX, OFFCHAIN_MEAN, OFFCHAIN_STD, OFFCHAIN_MIN, OFFCHAIN_MAX,
    ROI_MIN, ROI_MAX]

/-- The full three-run witness execution. -/
theorem run_full_three :
    run_full (fun _ _ => 0) 1 ganW 42 3
      = .ok (some ([recW, recW2, recW3], [(1, 1), (2, 2), (3, 3)], 15)) := by
  simp only [run_full]
  rw [if_neg (by simp [ganW]), if_neg (by simp [ganW]), dao_sequence_three]
  simp only [run_loop, Nat.reduceAdd, simulate_one_run1, simulate_one_run2,
    simulate_one_run3]

/-- C3 witness: for three runs the second label is the second element of
the cycle and the simulation ids are [1, 2, 3]. -/
theorem claim_C3_witness :
    (dao_sequence 3)[1]? = daoLabels[1 % 3]? ∧
    List.map RunRecord.simulationId [recW, recW2, recW3] = List.range' 1 3 :=
  ⟨(claim_C3 3).2.1 1 (by norm_num),
   (claim_C3 3).2.2 (fun _ _ => 0) 1 ganW 42 [recW, recW2, recW3]
     [(1, 1), (2, 2), (3, 3)] 15 run_full_three⟩

/-- C4: for a fixed seed and totalRuns, two executions whose ledger
collaborator is replaced by (possibly different) deterministic stubs
produce identical sequences of synthesized metric fields and identical
final stream positions: all randomness comes from the single stream
seeded once, consumed only by `truncated_normal` in a fixed per-run
order. -/
theorem claim_C4 (gauss : Nat → Nat → ℚ) (fuel : Nat) (gan1 gan2 : Ganache)
    (seed numRuns : Nat)
    (h1c : gan1.connected = true) (h1a : gan1.accounts ≠ [])
    (h2c : gan2.connected = true) (h2a : gan2.accounts ≠ []) :
    (run_full gauss fuel gan1 seed numRuns).map
        (Option.map fun x => (x.1.map synthFields, x.2.2))
    = (run_full gauss fuel gan2 seed numRuns).map
        (Option.map fun x => (x.1.map synthFields, x.2.2)) := by
  simp only [run_full]
  rw [if_neg (show ¬ gan1.connected = false by simp [h1c])]
  rw [if_neg (show ¬ gan2.connected = false by simp [h2c])]
  rw [if_neg h1a, if_neg h2a]
  simp only [Except.map]
  exact congrArg Except.ok
    (run_loop_stub (gauss seed) fuel gan1.stub gan2.stub (dao_sequence numRuns) 1 [] [] 0)

/-- C4 witness: the same seed with two stubs of different gas data gives
the same projected metric sequences over two runs. -/
theorem claim_C4_witness :
    (run_full (fun _ _ => 0) 1 ganW 42 2).map
        (Option.map fun x => (x.1.map synthFields, x.2.2))
    = (run_full (fun _ _ => 0) 1 ganW2 42 2).map
        (Option.map fun x => (x.1.map synthFields, x.2.2)) :=
  claim_C4 (fun _ _ => 0) 1 ganW ganW2 42 2 rfl (by simp [ganW]) rfl (by simp [ganW2])

/-- C5: each run submits exactly one executeDecision transaction with
proposalId equal to the run's simulationId and daoVersion equal to the
generation id of the run's profile; the chain after a successful run is
exactly the records' (simulationId, generationId) pairs in run order,
and each record matches exactly one chain decision. -/
theorem claim_C5 (gauss : Nat → Nat → ℚ) (fuel : Nat) (gan : Ganache)
    (seed numRuns : Nat) (rs : List RunRecord) (chain : List Decision) (pos : Nat)
    (h : run_full gauss fuel gan seed numRuns = .ok (some (rs, chain, pos))) :
    chain = rs.map (fun r => (r.simulationId, genIdOf r.daoGen)) ∧
    chain.length = rs.length ∧
    ∀ r ∈ rs, ∃! j : Fin chain.length,
      chain.get j = (r.simulationId, genIdOf r.daoGen) := by
  obtain ⟨hids, hlabs, hchain⟩ := run_loop_spec (gauss seed) fuel gan.stub
    (dao_sequence numRuns) 1 [] 0 rs chain pos (run_full_ok h)
  have hchain' : chain = rs.map (fun r => (r.simulationId, genIdOf r.daoGen)) := by
    simpa using hchain
  refine ⟨hchain', by rw [hchain']; simp, ?_⟩
  have hnody : (chain.map Prod.fst).Nodup := by
    rw [hchain', List.map_map]
    have hcomp : (Prod.fst ∘ fun r : RunRecord => (r.simulationId, genIdOf r.daoGen))
        = RunRecord.simulationId := rfl
    rw [hcomp, hids]
    exact List.nodup_range' 1 (dao_sequence numRuns).length
  have hnod : chain.Nodup := List.Nodup.of_map _ hnody
  intro r hr
  have hmem : (r.simulationId, genIdOf r.daoGen) ∈ chain := by
    rw [hchain']
    exact List.mem_map_of_mem _ hr
  obtain ⟨j, hj⟩ := List.mem_iff_get.mp hmem
  exact ⟨j, hj, fun k hk =>
    List.nodup_iff_injective_get.mp hnod (hk.trans hj.symm)⟩

/-- C5 witness: the one-run execution records the single decision
`(1, 1)`, which is counted exactly once. -/
theorem claim_C5_witness :
    [((1 : Nat), (1 : Nat))]
      = List.map (fun r => (r.simulationId, genIdOf r.daoGen)) [recW] ∧
    ∃! j : Fin ([((1 : Nat), (1 : Nat))] : List Decision).length,
      ([((1 : Nat), (1 : Nat))] : List Decision).get j
        = (recW.simulationId, genIdOf recW.daoGen) :=
  ⟨(claim_C5 (fun _ _ => 0) 1 ganW 42 1 [recW] [(1, 1)] 5
      (by norm_num [run_full, run_loop, dao_sequence, daoLabels, List.replicate,
        simulate_one, synthesize, truncated_normal, DAO_STATS, DAO_STATS_1, ganW,
        recW, roundTo, roundHalfEven, outcomeOf, violationOf,
        COMPLIANCE_VIOLATION_THRESHOLD, LATENCY_MIN, LATENCY_MAX, COMPLIANCE_MIN,
        COMPLIANCE_MAX, OFFCHAIN_MEAN, OFFCHAIN_STD, OFFCHAIN_MIN, OFFCHAIN_MAX,
        ROI_MIN, ROI_MAX])).1,
   (claim_C5 (fun _ _ => 0) 1 ganW 42 1 [recW] [(1, 1)] 5
      (by norm_num [run_full, run_loop, dao_sequence, daoLabels, List.replicate,
        simulate_one, synthesize, truncated_normal, DAO_STATS, DAO_STATS_1, ganW,
        recW, roundTo, roundHalfEven, outcomeOf, violationOf,
        COMPLIANCE_VIOLATION_THRESHOLD, LATENCY_MIN, LATENCY_MAX, COMPLIANCE_MIN,
        COMPLIANCE_MAX, OFFCHAIN_MEAN, OFFCHAIN_STD, OFFCHAIN_MIN, OFFCHAIN_MAX,
        ROI_MIN, ROI_MAX])).2.2 recW (List.mem_singleton.mpr rfl)⟩

/-- C7 counterexample: on a concrete produced record the actual column
names are "Gas Cost (ETH)" and "Total Cost (AED)", not the claimed
"Gas Cost (native unit)" and "Total Cost". -/
theorem claim_C7_counterexample :
    run_full (fun _ _ => 0) 1 ganW 42 1 = .ok (some ([recW], [(1, 1)], 5)) ∧
    (recordRow recW).map Prod.fst ≠
      ["Simulation ID", "DAO Gen", "Latency (s)", "Compliance (%)",
       "Gas Cost (native unit)", "Off-Chain Cost", "Total Cost",
       "Decision Outcome", "ROI (%)", "Compliance Violation"] := by
  constructor
  · norm_num [run_full, run_loop, dao_sequence, daoLabels, List.replicate,
      simulate_one, synthesize, truncated_normal, DAO_STATS, DAO_STATS_1, ganW,
      recW, roundTo, roundHalfEven, outcomeOf, violationOf,
      COMPLIANCE_VIOLATION_THRESHOLD, LATENCY_MIN, LATENCY_MAX, COMPLIANCE_MIN,
      COMPLIANCE_MAX, OFFCHAIN_MEAN, OFFCHAIN_STD, OFFCHAIN_MIN, OFFCHAIN_MAX,
      ROI_MIN, ROI_MAX]
  · simp [recordRow]

/-- C7 (amended): every produced record row consists of exactly ten
fields in the order Simulation ID, DAO Gen, Latency (s), Compliance (%),
Gas Cost (ETH), Off-Chain Cost, Total Cost (AED), Decision Outcome,
ROI (%), Compliance Violation; stored values are rounded as
presentation: latency to 2 decimals, compliance to 1 decimal, gas cost
to 6 decimals, off-chain and total cost to the nearest integer, ROI to
2 decimals. -/
theorem claim_C7 (g : Nat → ℚ) (fuel : Nat) (L : LedgerStub)
    (chain : List Decision) (pos idx : Nat) (label : String)
    (r : RunRecord) (chain' : List Decision) (pos' : Nat)
    (s : DAOProfile) (d : SynthDraws) (p : Nat)
    (hs : DAO_STATS label = some s)
    (hd : synthesize g fuel s pos = some (d, p))
    (h : simulate_one g fuel L chain pos idx label = some (r, chain', pos')) :
    recordRow r =
      [("Simulation ID", .nat idx),
       ("DAO Gen", .str label),
       ("Latency (s)", .rat (roundTo 2 d.lat)),
       ("Compliance (%)", .rat (roundTo 1 d.comp)),
       ("Gas Cost (ETH)", .rat (roundTo 6 (L.gasUsed idx * L.gasPrice idx / 10 ^ 18))),
       ("Off-Chain Cost", .int (roundHalfEven d.offchain)),
       ("Total Cost (AED)", .int (roundHalfEven d.total)),
       ("Decision Outcome", .str (outcomeOf d.roi d.comp)),
       ("ROI (%)", .rat (roundTo 2 d.roi)),
       ("Compliance Violation", .str (violationOf d.comp))] := by
  obtain ⟨s', d', hs', hd', _, hr⟩ := simulate_one_eq_some h
  rw [hs] at hs'
  injection hs' with hs''
  subst hs''
  rw [hd] at hd'
  injection hd' with hd''
  obtain ⟨hd1, _⟩ := Prod.mk.injEq .. ▸ hd''
  subst hd1
  subst hr
  rfl

/-- C7 witness: the concrete run-1 record has exactly that row. -/
theorem claim_C7_witness :
    recordRow recW =
      [("Simulation ID", .nat 1),
       ("DAO Gen", .str "DAO 1.0"),
       ("Latency (s)", .rat (roundTo 2 drawsW.lat)),
       ("Compliance (%)", .rat (roundTo 1 drawsW.comp)),
       ("Gas Cost (ETH)",
         .rat (roundTo 6 (ganW.stub.gasUsed 1 * ganW.stub.gasPrice 1 / 10 ^ 18))),
       ("Off-Chain Cost", .int (roundHalfEven drawsW.offchain)),
       ("Total Cost (AED)", .int (roundHalfEven drawsW.total)),
       ("Decision Outcome", .str (outcomeOf drawsW.roi drawsW.comp)),
       ("ROI (%)", .rat (roundTo 2 drawsW.roi)),
       ("Compliance Violation", .str (violationOf drawsW.comp))] :=
  claim_C7 (fun _ => 0) 1 ganW.stub [] 0 1 "DAO 1.0" recW [(1, 1)] 5
    DAO_STATS_1 drawsW 5 rfl
    (by norm_num [synthesize, truncated_normal, DAO_STATS_1, drawsW,
      LATENCY_MIN, LATENCY_MAX, COMPLIANCE_MIN, COMPLIANCE_MAX, OFFCHAIN_MEAN,
      OFFCHAIN_STD, OFFCHAIN_MIN, OFFCHAIN_MAX, ROI_MIN, ROI_MAX])
    (by norm_num [simulate_one, synthesize, truncated_normal, DAO_STATS,
      DAO_STATS_1, ganW, recW, roundTo, roundHalfEven, outcomeOf, violationOf,
      COMPLIANCE_VIOLATION_THRESHOLD, LATENCY_MIN, LATENCY_MAX, COMPLIANCE_MIN,
      COMPLIANCE_MAX, OFFCHAIN_MEAN, OFFCHAIN_STD, OFFCHAIN_MIN, OFFCHAIN_MAX,
      ROI_MIN, ROI_MAX])

end DaoSim

